import Mathlib

/-!
Verification of `src/smolagents_framework/mcp_tools.py`: a shallow embedding of
the script that wires a local LiteLLM model, an MCP stdio tool-provider
session, and a SmolaGents CodeAgent, followed by theorems settling the
specified properties.

External collaborators (the smolagents and mcp packages) are black boxes: their
outcomes enter the embedding as parameters (an `Ext` record of external
results), while every line of control flow of the script itself is embedded
faithfully from the source.
-/

set_option linter.unusedVariables false

namespace McpTools

/-- Embeds the `LiteLLMModel(...)` configuration record built at
`mcp_tools.py` lines 33-38: endpoint identifier, base URL, max output
tokens, context window size. -/
structure LiteLLMModel where
  model_id : String
  api_base : String
  max_tokens : Nat
  num_ctx : Nat
deriving DecidableEq

/-- Embeds `initialize_model` (`mcp_tools.py` lines 25-39): builds the model
config from static literals only. The embedding is a constant because the
source function takes no inputs, performs no I/O and returns a record of
literals, so any two calls return equal configs. -/
def init_model : LiteLLMModel :=
  { model_id := "ollama_chat/qwen2.5-coder:7b"
    api_base := "http://127.0.0.1:11434"
    max_tokens := 2048
    num_ctx := 8192 }

/-- An environment mapping, as a list of (key, value) bindings in insertion
order. A Python dict literal inserts entries left to right with later
insertions overwriting earlier ones, so lookup must return the LAST binding
of a key. -/
abbrev Env := List (String × String)

/-- One step of dict lookup: a later binding of `k` overwrites the
accumulated answer. -/
def envStep (k : String) (acc : Option String) (p : String × String) : Option String :=
  if p.1 = k then some p.2 else acc

/-- Dict lookup over the insertion-ordered binding list: the last binding of
`k` wins, mirroring Python dict-literal construction where later `**`
entries overwrite earlier explicit entries. -/
def envLookup (l : Env) (k : String) : Option String :=
  l.foldl (envStep k) none

/-- Embeds `StdioServerParameters` as consumed at `mcp_tools.py` lines
49-53: executable name, ordered argument list, environment mapping. -/
structure StdioServerParameters where
  command : String
  args : List String
  env : Env
deriving DecidableEq

/-- Embeds `setup_mcp_server` (`mcp_tools.py` lines 42-54). The Python dict
literal `{"UV_PYTHON": "3.13", **os.environ}` first inserts the
`UV_PYTHON` binding and then every entry of `os.environ`, so the parent
environment entries are inserted LATER and overwrite the literal on key
conflict; the embedding therefore conses the `UV_PYTHON` binding in front
of the parent bindings under last-binding-wins lookup. The parent
environment (`os.environ` at call time) is the one input. -/
def setup_mcp_server (parentEnv : Env) : StdioServerParameters :=
  { command := "uvx"
    args := ["--quiet", "pubmedmcp@0.1.3"]
    env := ("UV_PYTHON", "3.13") :: parentEnv }

/-- Folding the dict-lookup step from an arbitrary accumulator is the lookup
itself when the key is bound, and the accumulator otherwise. -/
theorem envLookup_foldl (k : String) (l : Env) (init : Option String) :
    l.foldl (envStep k) init =
      match l.foldl (envStep k) none with
      | some v => some v
      | none => init := by
  induction l generalizing init with
  | nil => simp [List.foldl]
  | cons p l ih =>
    simp only [List.foldl]
    rw [ih (envStep k init p), ih (envStep k none p)]
    cases h : l.foldl (envStep k) none with
    | some v => simp
    | none =>
      by_cases hp : p.1 = k
      · simp [envStep, hp]
      · simp [envStep, hp]

/-- Lookup in the merged environment built by `setup_mcp_server`: the parent
binding when present, otherwise the `UV_PYTHON` literal when the key is
`UV_PYTHON`, otherwise nothing. -/
theorem envLookup_setup (parentEnv : Env) (k : String) :
    envLookup (setup_mcp_server parentEnv).env k =
      match envLookup parentEnv k with
      | some v => some v
      | none => if "UV_PYTHON" = k then some "3.13" else none := by
  show List.foldl (envStep k) none (("UV_PYTHON", "3.13") :: parentEnv) = _
  simp only [List.foldl]
  rw [envLookup_foldl k parentEnv (envStep k none ("UV_PYTHON", "3.13"))]
  rfl

/-- Embeds the `ToolCollection` yielded by `ToolCollection.from_mcp(...)` at
`mcp_tools.py` line 66: the catalog of MCP tool names discovered through the
handshake. -/
structure ToolCollection where
  tools : List String
deriving DecidableEq

/-- Embeds the `CodeAgent(...)` constructor arguments at `mcp_tools.py`
lines 68-72: the tool list handed to the agent and the `add_base_tools`
flag. -/
structure CodeAgent where
  tools : List String
  addBaseTools : Bool
deriving DecidableEq

/-- Embeds the agent construction at `mcp_tools.py` lines 68-72:
`CodeAgent(tools=[*tool_collection.tools], model=model, add_base_tools=True)`
unpacks the ENTIRE discovered catalog and sets `add_base_tools` to true. -/
def mkCodeAgent (tool_collection : ToolCollection) : CodeAgent :=
  { tools := tool_collection.tools
    addBaseTools := true }

/-- Modelled from the spec: the framework flag `add_base_tools=True` makes
the runner use the supplied tools PLUS the framework default base tools
(source comment at `mcp_tools.py` line 71: "Include default smolagents
tools"); with the flag off only the supplied tools are used. The framework
implementation is external to this repository, so the effective tool set is
parameterised by the framework base-tool list. -/
def effectiveTools (agent : CodeAgent) (baseTools : List String) : List String :=
  if agent.addBaseTools then agent.tools ++ baseTools else agent.tools

/-- The error taxonomy of the spec: subprocess could not start, handshake or
exchange failed, the agent runner raised, or the run was cancelled from
outside (in CPython a cancellation signal is delivered as an exception,
e.g. KeyboardInterrupt). -/
inductive Err where
  | launchError : Err
  | protocolError : Err
  | runError : Err
  | cancelled : Err
deriving DecidableEq

/-- Observable steps of one execution of the script, in order. -/
inductive Event where
  | printLine : String → Event
  | buildModel : Event
  | buildServer : Event
  | sessionOpen : Event
  | agentInit : List String → Bool → Event
  | agentRun : String → Event
  | sessionClose : Event
deriving DecidableEq

/-- Outcomes of the external collaborators for one execution: the parent
process environment read by `setup_mcp_server`, the result of
`ToolCollection.from_mcp` (session open), and the result of `agent.run`
(final answer, or the error or cancellation that interrupted it). -/
structure Ext where
  parentEnv : Env
  openResult : Except Err ToolCollection
  runResult : Except Err String

/-- The hardcoded query at `mcp_tools.py` line 75. -/
def hangoverQuery : String := "Please find a remedy for hangover."

/-- Embeds the Python `with` statement at `mcp_tools.py` line 66. CPython
executes `with ctx as x: body` as enter, then `try: body finally: exit`,
so session close runs on EVERY exit path of the body — normal return,
raised exception, or external cancellation (delivered as an exception) —
before the outcome propagates to the caller. When entry itself fails no
session exists and the body never runs. -/
def withSession (openResult : Except Err ToolCollection)
    (body : ToolCollection → List Event × Except Err String) :
    List Event × Except Err String :=
  match openResult with
  | Except.error e => ([Event.sessionOpen], Except.error e)
  | Except.ok tc =>
      let r := body tc
      ([Event.sessionOpen] ++ r.1 ++ [Event.sessionClose], r.2)

/-- Embeds `run_agent_with_mcp_tools` (`mcp_tools.py` lines 57-77): inside
the `with` scope, construct the CodeAgent from the full catalog with
`add_base_tools=True`, run the single hardcoded query, and return the run
result; the `with` semantics closes the session on every exit path. -/
def run_agent_with_mcp_tools (model : LiteLLMModel)
    (server_parameters : StdioServerParameters) (ext : Ext) :
    List Event × Except Err String :=
  withSession ext.openResult (fun tool_collection =>
    let agent := mkCodeAgent tool_collection
    ([Event.agentInit agent.tools agent.addBaseTools,
      Event.agentRun hangoverQuery], ext.runResult))

/-- The separator printed by `print("-" * 60)` at lines 92 and 96. -/
def sep : String := "------------------------------------------------------------"

/-- Embeds `main` (`mcp_tools.py` lines 80-98): print progress lines, build
the model config, build the server descriptor, run the agent within the
session scope, and on success print the separator and the fixed completion
banner. There is no try/except anywhere in the script, so an error from
open or run propagates to the entry point unchanged and the two final
prints are skipped. `main` reads no command-line arguments (the source
`main()` takes no parameters and `sys.argv` is never consulted); its only
input is the external world `ext`. -/
def main (ext : Ext) : List Event × Except Err String :=
  let model := init_model
  let server_parameters := setup_mcp_server ext.parentEnv
  let r := run_agent_with_mcp_tools model server_parameters ext
  let pre : List Event :=
    [Event.printLine "Initializing LiteLLM model...",
     Event.buildModel,
     Event.printLine "Setting up MCP server parameters...",
     Event.buildServer,
     Event.printLine "Connecting to MCP server and running agent...",
     Event.printLine sep]
  match r.2 with
  | Except.ok v =>
      (pre ++ r.1 ++
        [Event.printLine sep, Event.printLine "Agent completed successfully!"],
       Except.ok v)
  | Except.error e => (pre ++ r.1, Except.error e)

/-- Process exit status: a Python script exits 0 when `main` returns
normally and nonzero (1) when an uncaught exception reaches the entry
point. -/
def exitCode (r : Except Err String) : Nat :=
  match r with
  | Except.ok _ => 0
  | Except.error _ => 1

/-- True exactly on the session-open event. -/
def isSessionOpen (e : Event) : Bool :=
  match e with
  | Event.sessionOpen => true
  | _ => false

/-- True exactly on an agent-run event. -/
def isAgentRun (e : Event) : Bool :=
  match e with
  | Event.agentRun _ => true
  | _ => false

/-- Modelled from the spec: the external conditions that decide a session
open — whether the executable can be spawned, whether the handshake
completes before the timeout, and the tool catalog advertised on
success. The implementation lives in the external smolagents and mcp
packages, absent from this repository. -/
structure OpenWorld where
  spawnOk : Bool
  handshakeOk : Bool
  advertised : List String

/-- Modelled from the spec: a live tool session owning the advertised
catalog and the subprocess liveness flag. -/
structure ToolSession where
  tools : List String
  live : Bool
deriving DecidableEq

/-- Modelled from the spec: side effects of closing a session. -/
inductive CloseEffect where
  | terminateSubprocess : CloseEffect
deriving DecidableEq

/-- Modelled from the spec: `open(descriptor)` starts the subprocess and
performs the handshake. If the executable cannot be started it fails with
`LaunchError` and no subprocess remains running; if the handshake fails or
times out it terminates the partly-started process and fails with
`ProtocolError`; on success it returns the session and the subprocess is
running. The second component reports whether a tool-provider subprocess
is left running. The implementation lives in the external smolagents and
mcp packages, absent from this repository. -/
def openSession (descriptor : StdioServerParameters) (w : OpenWorld) :
    Except Err ToolSession × Bool :=
  if w.spawnOk = false then (Except.error Err.launchError, false)
  else if w.handshakeOk = false then (Except.error Err.protocolError, false)
  else (Except.ok { tools := w.advertised, live := true }, true)

/-- Modelled from the spec: `close(session)` terminates the subprocess when
the session is live and invalidates it; on an already-closed session it is
a no-op that raises no error (the function is total) and produces no side
effect. -/
def closeSession (s : ToolSession) : ToolSession × List CloseEffect :=
  if s.live then ({ s with live := false }, [CloseEffect.terminateSubprocess])
  else (s, [])

/-- A successful execution of the external collaborators: empty parent
environment, a catalog with one tool, a final answer. -/
def extOk : Ext :=
  { parentEnv := []
    openResult := Except.ok { tools := ["pubmed_search"] }
    runResult := Except.ok "Drink water and rest." }

/-- An execution where the session open fails with a launch error. -/
def extLaunchFail : Ext :=
  { parentEnv := []
    openResult := Except.error Err.launchError
    runResult := Except.error Err.runError }

/-- An execution where the agent run raises after a successful open. -/
def extRunFail : Ext :=
  { parentEnv := []
    openResult := Except.ok { tools := ["pubmed_search"] }
    runResult := Except.error Err.runError }

/-- C6: the model config builder is a pure function of static literals: it
takes no inputs (the embedding is a constant, so any two calls return equal
configs), performs no I/O and cannot fail (it is a total term of record
type), and the max output tokens (2048) and context window size (8192) are
both positive. -/
theorem c6_model_config_pure_and_positive :
    0 < init_model.max_tokens ∧ 0 < init_model.num_ctx ∧
      init_model =
        { model_id := "ollama_chat/qwen2.5-coder:7b"
          api_base := "http://127.0.0.1:11434"
          max_tokens := 2048
          num_ctx := 8192 } :=
  ⟨by decide, by decide, rfl⟩

/-- C2 counterexample: with a parent environment that already defines
UV_PYTHON as "3.12", the merged environment built by `setup_mcp_server`
does NOT map UV_PYTHON to "3.13" — the Python dict literal
`{"UV_PYTHON": "3.13", **os.environ}` lets the inherited entry win on
conflict, so the claim fails on the code. -/
theorem c2_override_counterexample :
    ¬ envLookup (setup_mcp_server [("UV_PYTHON", "3.12")]).env "UV_PYTHON"
        = some "3.13" := by
  decide

/-- C2 (amended): on conflict the INHERITED environment takes precedence
over the override: the merged environment maps UV_PYTHON to "3.13" exactly
when the parent environment does not bind UV_PYTHON, and to the parent
value whenever the parent binds it. -/
theorem c2_uv_python_default_amended (parentEnv : Env) :
    (envLookup parentEnv "UV_PYTHON" = none →
      envLookup (setup_mcp_server parentEnv).env "UV_PYTHON" = some "3.13")
    ∧ ∀ v, envLookup parentEnv "UV_PYTHON" = some v →
      envLookup (setup_mcp_server parentEnv).env "UV_PYTHON" = some v := by
  constructor
  · intro h
    rw [envLookup_setup, h]
    simp
  · intro v h
    rw [envLookup_setup, h]

/-- C2 witness: the amended statement evaluated at an empty parent
environment and at one that binds UV_PYTHON to "3.12". -/
theorem c2_uv_python_default_amended_witness :
    envLookup (setup_mcp_server []).env "UV_PYTHON" = some "3.13"
    ∧ envLookup (setup_mcp_server [("UV_PYTHON", "3.12")]).env "UV_PYTHON"
        = some "3.12" :=
  ⟨(c2_uv_python_default_amended []).1 (by decide),
   (c2_uv_python_default_amended [("UV_PYTHON", "3.12")]).2 "3.12" (by decide)⟩

/-- C10: the entire parent process environment is forwarded to the
tool-provider subprocess: every key bound in the parent environment when
`setup_mcp_server` is called is bound to the same value in the launch
descriptor environment (the `**os.environ` entries are inserted last and
win every conflict). -/
theorem c10_parent_env_forwarded (parentEnv : Env) (k v : String)
    (h : envLookup parentEnv k = some v) :
    envLookup (setup_mcp_server parentEnv).env k = some v := by
  rw [envLookup_setup, h]

/-- C10 witness: a parent environment binding PATH is forwarded intact. -/
theorem c10_parent_env_forwarded_witness :
    envLookup [("PATH", "/usr/bin"), ("HOME", "/root")] "PATH" = some "/usr/bin"
    ∧ envLookup (setup_mcp_server [("PATH", "/usr/bin"), ("HOME", "/root")]).env
        "PATH" = some "/usr/bin" :=
  ⟨by decide,
   c10_parent_env_forwarded [("PATH", "/usr/bin"), ("HOME", "/root")] "PATH"
     "/usr/bin" (by decide)⟩

/-- True exactly on the session-close event. -/
def isSessionClose (e : Event) : Bool :=
  match e with
  | Event.sessionClose => true
  | _ => false

/-- C1: on every execution path out of the `with` block that uses the tool
session — normal completion of the agent run, an exception raised during
the run, or an external cancellation (all covered because `ext.runResult`
ranges over ok, runError and cancelled) — the session close is invoked
exactly once, as the LAST step of the block, so it happens before the
outcome (the error, if any) propagates further and the tool-provider
subprocess is not left running. -/
theorem c1_session_closed_on_every_exit_path (model : LiteLLMModel)
    (server_parameters : StdioServerParameters) (ext : Ext)
    (tc : ToolCollection) (h : ext.openResult = Except.ok tc) :
    (run_agent_with_mcp_tools model server_parameters ext).1.countP
        isSessionClose = 1
    ∧ (run_agent_with_mcp_tools model server_parameters ext).1.getLast?
        = some Event.sessionClose
    ∧ (run_agent_with_mcp_tools model server_parameters ext).2
        = ext.runResult := by
  unfold run_agent_with_mcp_tools withSession
  rw [h]
  refine ⟨?_, rfl, rfl⟩
  simp [List.countP_cons, isSessionClose]

/-- C1 witness: an execution where the agent run raises, evaluated
concretely — the session is still closed exactly once, last, and the error
propagates. -/
theorem c1_session_closed_witness :
    (run_agent_with_mcp_tools init_model (setup_mcp_server [])
        extRunFail).1.countP isSessionClose = 1
    ∧ (run_agent_with_mcp_tools init_model (setup_mcp_server [])
        extRunFail).1.getLast? = some Event.sessionClose
    ∧ (run_agent_with_mcp_tools init_model (setup_mcp_server [])
        extRunFail).2 = extRunFail.runResult :=
  c1_session_closed_on_every_exit_path init_model (setup_mcp_server [])
    extRunFail { tools := ["pubmed_search"] } rfl

/-- C3 counterexample: a successful execution whose final answer is
"Drink water and rest." reaches the Completed outcome, yet the program
never prints that answer — `main` assigns the result and discards it,
printing only the fixed banner. -/
theorem c3_result_not_printed_counterexample :
    (main extOk).2 = Except.ok "Drink water and rest."
    ∧ Event.printLine "Drink water and rest." ∉ (main extOk).1 := by
  refine ⟨rfl, ?_⟩
  decide

/-- The fixed strings `main` prints on the success path. -/
def printedBanners : List String :=
  ["Initializing LiteLLM model...",
   "Setting up MCP server parameters...",
   "Connecting to MCP server and running agent...",
   sep,
   "Agent completed successfully!"]

/-- C3 (amended): on every successful run the agent final answer is
returned to `main` (the Completed outcome carries it), but it is never
printed: the last line printed is the fixed banner
"Agent completed successfully!", and no print event carries the answer
(whenever the answer is not itself one of the fixed progress strings). -/
theorem c3_banner_not_result_amended (ext : Ext) (tc : ToolCollection)
    (r : String) (h1 : ext.openResult = Except.ok tc)
    (h2 : ext.runResult = Except.ok r) (h3 : r ∉ printedBanners) :
    (main ext).2 = Except.ok r
    ∧ Event.printLine r ∉ (main ext).1
    ∧ (main ext).1.getLast?
        = some (Event.printLine "Agent completed successfully!") := by
  unfold main run_agent_with_mcp_tools withSession
  rw [h1, h2]
  simp only [printedBanners, List.mem_cons, List.not_mem_nil, or_false,
    not_or] at h3
  obtain ⟨n1, n2, n3, n4, n5⟩ := h3
  refine ⟨rfl, ?_, rfl⟩
  simp [hangoverQuery, n1, n2, n3, n4, n5]

/-- C3 amended witness: the amended statement evaluated on the concrete
successful execution. -/
theorem c3_banner_not_result_amended_witness :
    (main extOk).2 = Except.ok "Drink water and rest."
    ∧ Event.printLine "Drink water and rest." ∉ (main extOk).1
    ∧ (main extOk).1.getLast?
        = some (Event.printLine "Agent completed successfully!") :=
  c3_banner_not_result_amended extOk { tools := ["pubmed_search"] }
    "Drink water and rest." rfl rfl (by decide)

/-- C4: the program catches nothing and retries nothing: every trace opens
the session at most once and runs the agent at most once; any fatal error
(launch, protocol, or run) reaches the entry point unchanged — it is
exactly the error the external open or run produced — and the process
exits nonzero on it, while a successful run exits zero. -/
theorem c4_fatal_errors_propagate_no_retry (ext : Ext) :
    ((main ext).1.countP isSessionOpen ≤ 1
      ∧ (main ext).1.countP isAgentRun ≤ 1)
    ∧ (∀ e, (main ext).2 = Except.error e →
        (ext.openResult = Except.error e ∨ ext.runResult = Except.error e)
        ∧ exitCode (main ext).2 = 1)
    ∧ ∀ r, (main ext).2 = Except.ok r → exitCode (main ext).2 = 0 := by
  obtain ⟨pe, openR, runR⟩ := ext
  cases openR with
  | error e0 =>
      refine ⟨⟨?_, ?_⟩, ?_, ?_⟩ <;>
        simp [main, run_agent_with_mcp_tools, withSession, exitCode,
          isSessionOpen, isAgentRun, List.countP_cons]
  | ok tc =>
      cases runR with
      | error e0 =>
          refine ⟨⟨?_, ?_⟩, ?_, ?_⟩ <;>
            simp [main, run_agent_with_mcp_tools, withSession, exitCode,
              isSessionOpen, isAgentRun, List.countP_cons]
      | ok v =>
          refine ⟨⟨?_, ?_⟩, ?_, ?_⟩ <;>
            simp [main, run_agent_with_mcp_tools, withSession, exitCode,
              isSessionOpen, isAgentRun, List.countP_cons]

/-- C4 witness: the launch-failure execution exits with status 1 carrying
the launch error, and the successful execution exits with status 0. -/
theorem c4_fatal_errors_propagate_witness :
    ((extLaunchFail.openResult = Except.error Err.launchError
        ∨ extLaunchFail.runResult = Except.error Err.launchError)
      ∧ exitCode (main extLaunchFail).2 = 1)
    ∧ exitCode (main extOk).2 = 0 :=
  ⟨(c4_fatal_errors_propagate_no_retry extLaunchFail).2.1 Err.launchError rfl,
   (c4_fatal_errors_propagate_no_retry extOk).2.2 "Drink water and rest." rfl⟩

/-- C5: every successful execution performs the fixed sequence in order —
build the model config, build the server descriptor, open the session,
construct the agent inside the scope, run the query — and runs the agent
exactly once, on the single hardcoded query; `main` takes no command-line
arguments (its embedding consumes only the external world). -/
theorem c5_fixed_sequence_single_query (ext : Ext) (tc : ToolCollection)
    (r : String) (h1 : ext.openResult = Except.ok tc)
    (h2 : ext.runResult = Except.ok r) :
    (main ext).1 =
      [Event.printLine "Initializing LiteLLM model...",
       Event.buildModel,
       Event.printLine "Setting up MCP server parameters...",
       Event.buildServer,
       Event.printLine "Connecting to MCP server and running agent...",
       Event.printLine sep,
       Event.sessionOpen,
       Event.agentInit tc.tools true,
       Event.agentRun "Please find a remedy for hangover.",
       Event.sessionClose,
       Event.printLine sep,
       Event.printLine "Agent completed successfully!"]
    ∧ (main ext).1.countP isAgentRun = 1 := by
  unfold main run_agent_with_mcp_tools withSession
  rw [h1, h2]
  refine ⟨rfl, ?_⟩
  simp [isAgentRun, List.countP_cons]

/-- C5 witness: the sequence evaluated on the concrete successful
execution. -/
theorem c5_fixed_sequence_witness :
    (main extOk).1 =
      [Event.printLine "Initializing LiteLLM model...",
       Event.buildModel,
       Event.printLine "Setting up MCP server parameters...",
       Event.buildServer,
       Event.printLine "Connecting to MCP server and running agent...",
       Event.printLine sep,
       Event.sessionOpen,
       Event.agentInit ["pubmed_search"] true,
       Event.agentRun "Please find a remedy for hangover.",
       Event.sessionClose,
       Event.printLine sep,
       Event.printLine "Agent completed successfully!"]
    ∧ (main extOk).1.countP isAgentRun = 1 :=
  c5_fixed_sequence_single_query extOk { tools := ["pubmed_search"] }
    "Drink water and rest." rfl rfl

/-- C7: session open fails with a launch error and leaves no subprocess
running whenever the executable cannot be spawned, and fails with a
protocol error with the partly-started process terminated whenever the
handshake fails or times out. -/
theorem c7_open_failure_modes (d : StdioServerParameters) (w : OpenWorld) :
    (w.spawnOk = false →
      openSession d w = (Except.error Err.launchError, false))
    ∧ (w.spawnOk = true → w.handshakeOk = false →
      openSession d w = (Except.error Err.protocolError, false)) := by
  constructor
  · intro h
    simp [openSession, h]
  · intro h1 h2
    simp [openSession, h1, h2]

/-- C7 witness: both failure modes evaluated on the descriptor the script
builds and concrete worlds. -/
theorem c7_open_failure_modes_witness :
    openSession (setup_mcp_server [])
        { spawnOk := false, handshakeOk := true, advertised := [] }
      = (Except.error Err.launchError, false)
    ∧ openSession (setup_mcp_server [])
        { spawnOk := true, handshakeOk := false, advertised := [] }
      = (Except.error Err.protocolError, false) :=
  ⟨(c7_open_failure_modes (setup_mcp_server [])
      { spawnOk := false, handshakeOk := true, advertised := [] }).1 rfl,
   (c7_open_failure_modes (setup_mcp_server [])
      { spawnOk := true, handshakeOk := false, advertised := [] }).2 rfl rfl⟩

/-- C8: closing is idempotent — closing an already-closed session returns
it unchanged with NO side effects (and `closeSession` is total, so the
second call raises no error either). -/
theorem c8_close_idempotent (s : ToolSession) :
    closeSession (closeSession s).1 = ((closeSession s).1, []) := by
  obtain ⟨tools, live⟩ := s
  cases live <;> simp [closeSession]

/-- C9: the agent is constructed from the ENTIRE discovered catalog with
`add_base_tools` set, so whenever the framework contributes a base tool
not already in the catalog, the effective tool set handed to the runner is
a strict superset of the catalog. -/
theorem c9_tools_strict_superset (tc : ToolCollection)
    (baseTools : List String) (b : String) (hb : b ∈ baseTools)
    (hnb : b ∉ tc.tools) :
    (mkCodeAgent tc).tools = tc.tools
    ∧ (mkCodeAgent tc).addBaseTools = true
    ∧ (∀ t ∈ tc.tools, t ∈ effectiveTools (mkCodeAgent tc) baseTools)
    ∧ ∃ u ∈ effectiveTools (mkCodeAgent tc) baseTools, u ∉ tc.tools := by
  refine ⟨rfl, rfl, ?_, ⟨b, ?_, hnb⟩⟩
  · intro t ht
    simp [effectiveTools, mkCodeAgent]
    exact Or.inl ht
  · simp [effectiveTools, mkCodeAgent]
    exact Or.inr hb

/-- C9 witness: with catalog ["pubmed_search"] and framework base tool
"final_answer", the effective set strictly contains the catalog. -/
theorem c9_tools_strict_superset_witness :
    (mkCodeAgent { tools := ["pubmed_search"] }).tools = ["pubmed_search"]
    ∧ (mkCodeAgent { tools := ["pubmed_search"] }).addBaseTools = true
    ∧ (∀ t ∈ ["pubmed_search"],
        t ∈ effectiveTools (mkCodeAgent { tools := ["pubmed_search"] })
          ["final_answer"])
    ∧ ∃ u ∈ effectiveTools (mkCodeAgent { tools := ["pubmed_search"] })
        ["final_answer"], u ∉ ["pubmed_search"] :=
  c9_tools_strict_superset { tools := ["pubmed_search"] } ["final_answer"]
    "final_answer" (by decide) (by decide)

end McpTools
